import Mathlib

set_option maxRecDepth 10000
set_option maxHeartbeats 1000000

/-!
Verification of `scripts/generate_tts_gemini.py` and `scripts/prompt_generator.py`
from the HearO_web repository, against the repository specification.

The Python scripts are shallowly embedded below.  Network responses, the story
corpus, and file-system outcomes are parameters (oracles); everything the code
computes from them is transcribed from the source.
-/

/-! ## Model of `call_gemini_tts_api` (generate_tts_gemini.py, lines 193-282)

One HTTP request (`requests.post`) is observed by the code through: the status
code, the payload-extraction chain
(candidates -> content -> parts -> inlineData -> data, then base64 decoding),
and the exceptions the request machinery can raise.  `ApiResp` records exactly
that observable outcome. -/

/-- Observable outcome of one `requests.post` call inside `call_gemini_tts_api`.
`http code audio` is a response that arrived with status `code`; `audio` is the
result of the payload extraction and base64 decode (`none` when the payload is
empty or malformed, in which case the source takes its no-audio branch or its
generic exception handler - both observationally identical).  `timeout` models
`requests.exceptions.Timeout`; `err` models any other raised exception
(transport-level fault and the like). -/
inductive ApiResp where
  | http (code : Nat) (audio : Option (List Nat))
  | timeout
  | err
deriving DecidableEq, Repr

/-- Exit of the `for retry in range(max_retries)` loop in `call_gemini_tts_api`:
`last r` - the loop stopped via `break` with final response `r`;
`exhausted` - the iterations ran out, the last response being a rate limited
one (only consecutive 429 responses on the fallback tier reach this);
`raisedTimeout` / `raisedErr` - `requests.post` raised;
`escalate` - a 429 on the primary tier returned the recursive fallback call. -/
inductive LoopExit where
  | last (r : ApiResp)
  | exhausted
  | raisedTimeout
  | raisedErr
  | escalate
deriving DecidableEq, Repr

/-- The bound `max_retries = 2` (line 228). -/
def max_retries : Nat := 2

/-- The request loop of `call_gemini_tts_api` (lines 229-240).  `req n` is the
response to the `n`-th request issued on this tier, `retry` the loop counter and
`fuel` the remaining iterations (`max_retries - retry`).  Returns the loop exit,
the number of requests issued, and the `time.sleep` waits performed, in order.
A 429 on the primary tier returns the fallback call (`escalate`); a 429 on the
fallback tier sleeps `30 + 30 * retry` seconds and continues the loop. -/
def apiLoop (req : Nat → ApiResp) (use_fallback : Bool) :
    Nat → Nat → LoopExit × Nat × List Nat
  | _, 0 => (.exhausted, 0, [])
  | retry, fuel + 1 =>
    match req retry with
    | .timeout => (.raisedTimeout, 1, [])
    | .err => (.raisedErr, 1, [])
    | .http code audio =>
      if code = 429 then
        if use_fallback then
          let wait := 30 + 30 * retry
          let rest := apiLoop req use_fallback (retry + 1) fuel
          (rest.1, rest.2.1 + 1, wait :: rest.2.2)
        else (.escalate, 1, [])
      else (.last (.http code audio), 1, [])

/-- Outcome of one tier of `call_gemini_tts_api`: decoded audio bytes, a `None`
return, or - primary tier only - escalation to the fallback tier.  Each carries
the number of requests issued and the sleeps performed on this tier. -/
inductive TierOutcome where
  | success (audio : List Nat) (requests : Nat) (sleeps : List Nat)
  | failure (requests : Nat) (sleeps : List Nat)
  | escalated (requests : Nat) (sleeps : List Nat)
deriving DecidableEq, Repr

/-- Requests issued by a tier call. -/
def TierOutcome.requests : TierOutcome → Nat
  | .success _ n _ => n
  | .failure n _ => n
  | .escalated n _ => n

/-- One tier of `call_gemini_tts_api`: the request loop followed by the
post-loop status checks (lines 242-271) and the two exception handlers (lines
273-282).  Every `escalated` result corresponds to one of the five
`return call_gemini_tts_api(..., use_fallback=True)` sites, all guarded by
`if not use_fallback`. -/
def tierCall (req : Nat → ApiResp) (use_fallback : Bool) : TierOutcome :=
  match apiLoop req use_fallback 0 max_retries with
  | (.raisedTimeout, n, s) => if use_fallback then .failure n s else .escalated n s
  | (.raisedErr, n, s) => if use_fallback then .failure n s else .escalated n s
  | (.escalate, n, s) => .escalated n s
  | (.exhausted, n, s) => .failure n s
  | (.last (.http code audio), n, s) =>
    if code = 429 then .failure n s
    else if code = 403 then (if use_fallback then .failure n s else .escalated n s)
    else if code ≠ 200 then (if use_fallback then .failure n s else .escalated n s)
    else
      match audio with
      | none => if use_fallback then .failure n s else .escalated n s
      | some b => .success b n s
  | (.last .timeout, n, s) => .failure n s
  | (.last .err, n, s) => .failure n s

/-- Result of a whole `call_gemini_tts_api` invocation: the returned audio (or
`None`), the requests issued on each tier, the number of recursive escalations
performed, and all sleeps, in order. -/
structure CallResult where
  audio : Option (List Nat)
  primaryRequests : Nat
  fallbackRequests : Nat
  escalations : Nat
  sleeps : List Nat
deriving DecidableEq, Repr

/-- The `use_fallback=True` branch of `call_gemini_tts_api`: one fallback-tier
attempt, never recursing again (every escalation site checks
`if not use_fallback`). `o true` gives the fallback-tier responses. -/
def callFallback (o : Bool → Nat → ApiResp) : CallResult :=
  match tierCall (o true) true with
  | .success b n s => ⟨some b, 0, n, 0, s⟩
  | .failure n s => ⟨none, 0, n, 0, s⟩
  | .escalated n s => ⟨none, 0, n, 0, s⟩

/-- Model of `call_gemini_tts_api` (lines 193-282).  `o false` gives the primary
("Flash") tier responses and `o true` the fallback ("Pro") tier responses.
A primary call that hits any failure class returns the result of exactly one
recursive call with `use_fallback=True`. -/
def call_gemini_tts_api (o : Bool → Nat → ApiResp) (use_fallback : Bool) : CallResult :=
  if use_fallback then callFallback o
  else
    match tierCall (o false) false with
    | .success b n s => ⟨some b, n, 0, 0, s⟩
    | .failure n s => ⟨none, n, 0, 0, s⟩
    | .escalated n s =>
      let fb := callFallback o
      ⟨fb.audio, n, fb.fallbackRequests, 1, s ++ fb.sleeps⟩

/-- Whether the primary-tier attempt itself produced audio, so that no failure
class was hit and no escalation happened. -/
def primarySucceeds (o : Bool → Nat → ApiResp) : Bool :=
  match tierCall (o false) false with
  | .success _ _ _ => true
  | _ => false

/-- Failure classes on a tier other than a rate limit, as enumerated by the
specification: quota exceeded (403), any other non-success status, an empty or
malformed payload, a request timeout, or a transport-level fault. -/
def terminalClass (r : ApiResp) : Bool :=
  match r with
  | .http code audio =>
    if code = 429 then false else if code = 200 then audio.isNone else true
  | .timeout => true
  | .err => true

/-! ### Basic facts about the tier call -/

theorem tierCall_false_cases (req : Nat → ApiResp) :
    (∃ b, req 0 = .http 200 (some b) ∧ tierCall req false = .success b 1 []) ∨
    (tierCall req false = .escalated 1 []) := by
  rcases h : req 0 with ⟨code, audio⟩ | _ | _
  · by_cases hc : code = 429
    · right; subst hc; simp [tierCall, max_retries, apiLoop, h]
    · by_cases hq : code = 403
      · right; subst hq; simp [tierCall, max_retries, apiLoop, h]
      · by_cases h2 : code = 200
        · subst h2
          rcases audio with _ | b
          · right; simp [tierCall, max_retries, apiLoop, h]
          · left; exact ⟨b, rfl, by simp [tierCall, max_retries, apiLoop, h]⟩
        · right; simp [tierCall, max_retries, apiLoop, h, hc, hq, h2]
  · right; simp [tierCall, max_retries, apiLoop, h]
  · right; simp [tierCall, max_retries, apiLoop, h]

theorem tierCall_true_cases (req : Nat → ApiResp) :
    (∃ b n s, tierCall req true = .success b n s ∧ 1 ≤ n ∧ n ≤ 2) ∨
    (∃ n s, tierCall req true = .failure n s ∧ 1 ≤ n ∧ n ≤ 2) := by
  rcases h : req 0 with ⟨code, audio⟩ | _ | _
  · by_cases hc : code = 429
    · subst hc
      rcases h1 : req 1 with ⟨code1, audio1⟩ | _ | _
      · by_cases hc1 : code1 = 429
        · subst hc1; right; exact ⟨2, [30, 60], by simp [tierCall, max_retries, apiLoop, h, h1], by omega, by omega⟩
        · by_cases hq1 : code1 = 403
          · subst hq1; right; exact ⟨2, [30], by simp [tierCall, max_retries, apiLoop, h, h1], by omega, by omega⟩
          · by_cases h21 : code1 = 200
            · subst h21
              rcases audio1 with _ | b
              · right; exact ⟨2, [30], by simp [tierCall, max_retries, apiLoop, h, h1], by omega, by omega⟩
              · left; exact ⟨b, 2, [30], by simp [tierCall, max_retries, apiLoop, h, h1], by omega, by omega⟩
            · right
              refine ⟨2, [30], ?_, by omega, by omega⟩
              simp [tierCall, max_retries, apiLoop, h, h1, hc1, hq1, h21]
      · right; exact ⟨2, [30], by simp [tierCall, max_retries, apiLoop, h, h1], by omega, by omega⟩
      · right; exact ⟨2, [30], by simp [tierCall, max_retries, apiLoop, h, h1], by omega, by omega⟩
    · by_cases hq : code = 403
      · subst hq; right; exact ⟨1, [], by simp [tierCall, max_retries, apiLoop, h], by omega, by omega⟩
      · by_cases h2 : code = 200
        · subst h2
          rcases audio with _ | b
          · right; exact ⟨1, [], by simp [tierCall, max_retries, apiLoop, h], by omega, by omega⟩
          · left; exact ⟨b, 1, [], by simp [tierCall, max_retries, apiLoop, h], by omega, by omega⟩
        · right
          refine ⟨1, [], ?_, by omega, by omega⟩
          simp [tierCall, max_retries, apiLoop, h, hc, hq, h2]
  · right; exact ⟨1, [], by simp [tierCall, max_retries, apiLoop, h], by omega, by omega⟩
  · right; exact ⟨1, [], by simp [tierCall, max_retries, apiLoop, h], by omega, by omega⟩

theorem tierCall_true_429_429 (req : Nat → ApiResp) (a0 a1 : Option (List Nat))
    (h0 : req 0 = .http 429 a0) (h1 : req 1 = .http 429 a1) :
    tierCall req true = .failure 2 [30, 60] := by
  simp [tierCall, max_retries, apiLoop, h0, h1]

theorem tierCall_true_terminal (req : Nat → ApiResp)
    (h : terminalClass (req 0) = true) :
    tierCall req true = .failure 1 [] := by
  rcases h0 : req 0 with ⟨code, audio⟩ | _ | _
  · rw [h0] at h
    by_cases hc : code = 429
    · subst hc; simp [terminalClass] at h
    · by_cases hq : code = 403
      · subst hq; simp [tierCall, max_retries, apiLoop, h0]
      · by_cases h2 : code = 200
        · subst h2
          rcases audio with _ | b
          · simp [tierCall, max_retries, apiLoop, h0]
          · simp [terminalClass] at h
        · simp [tierCall, max_retries, apiLoop, h0, hc, hq, h2]
  · simp [tierCall, max_retries, apiLoop, h0]
  · simp [tierCall, max_retries, apiLoop, h0]

theorem callFallback_escalations (o : Bool → Nat → ApiResp) :
    (callFallback o).escalations = 0 ∧ (callFallback o).primaryRequests = 0 ∧
    1 ≤ (callFallback o).fallbackRequests ∧ (callFallback o).fallbackRequests ≤ 2 := by
  unfold callFallback
  rcases tierCall_true_cases (o true) with ⟨b, n, s, h, h1, h2⟩ | ⟨n, s, h, h1, h2⟩ <;>
    simp [h, h1, h2]

/-! ### Claim theorems about the remote call -/

/-- Concrete oracle whose primary request times out and whose fallback request
hits a quota response. -/
def c1Oracle : Bool → Nat → ApiResp := fun use_fallback _ =>
  if use_fallback then .http 403 none else .timeout

/-- Concrete oracle whose fallback tier answers 429 to the first two requests
and would answer a successful audio payload to a third request. -/
def c2Oracle : Bool → Nat → ApiResp := fun _ n =>
  if n < 2 then .http 429 none else .http 200 (some [1])

/-- C1.  Whenever the primary-tier attempt fails (rate limit, quota, other
non-success status, empty or malformed payload, timeout, or transport fault -
`primarySucceeds` is false exactly in these cases), the call performs exactly
one escalation to the fallback tier, at least one fallback request is issued,
and the overall answer is exactly that of the single fallback attempt; a call
already on the fallback tier performs no escalation at all. -/
theorem C1_fallback_escalation (o : Bool → Nat → ApiResp)
    (h : primarySucceeds o = false) :
    (call_gemini_tts_api o false).escalations = 1 ∧
    1 ≤ (call_gemini_tts_api o false).fallbackRequests ∧
    (call_gemini_tts_api o false).audio = (callFallback o).audio ∧
    (call_gemini_tts_api o true).escalations = 0 := by
  have hf := callFallback_escalations o
  rcases tierCall_false_cases (o false) with ⟨b, hb, hs⟩ | hs
  · rw [primarySucceeds, hs] at h; simp at h
  · constructor
    · simp [call_gemini_tts_api, hs]
    · refine ⟨?_, ?_, ?_⟩
      · simpa [call_gemini_tts_api, hs] using hf.2.2.1
      · simp [call_gemini_tts_api, hs]
      · simpa [call_gemini_tts_api] using hf.1

/-- Witness for C1 at a concrete oracle: the primary request times out, one
escalation happens, and the call returns the `None` of the fallback attempt. -/
theorem C1_witness :
    primarySucceeds c1Oracle = false ∧
    (call_gemini_tts_api c1Oracle false).escalations = 1 ∧
    1 ≤ (call_gemini_tts_api c1Oracle false).fallbackRequests ∧
    (call_gemini_tts_api c1Oracle true).escalations = 0 :=
  ⟨by decide, (C1_fallback_escalation c1Oracle (by decide)).1,
   (C1_fallback_escalation c1Oracle (by decide)).2.1,
   (C1_fallback_escalation c1Oracle (by decide)).2.2.2⟩

/-- Counterexample for C2 as stated.  On the fallback tier, two consecutive
rate-limit responses exhaust the loop: only two requests are issued in total
(the initial attempt plus a single retry), and the call returns `None` even
though the oracle would have answered the success payload to a third request.
So a rate-limited fallback call is retried at most once, not up to two times:
the second backoff sleep of 60 seconds is performed but is followed by no
request. -/
theorem C2_counterexample :
    (call_gemini_tts_api c2Oracle true).audio = none ∧
    (call_gemini_tts_api c2Oracle true).fallbackRequests = 2 ∧
    (call_gemini_tts_api c2Oracle true).sleeps = [30, 60] ∧
    c2Oracle true 2 = .http 200 (some [1]) := by decide

/-- C2 as amended.  On the fallback tier: a rate-limit response on both of the
first two requests yields `None` after exactly two requests with sleeps of 30
then 60 seconds (the 60-second sleep is followed by no further request); any
non-rate-limit failure class on the first request is terminal after exactly one
request with no sleep, yielding `None`; and every fallback call issues at most
two requests and never escalates. -/
theorem C2_amended (o1 o2 : Bool → Nat → ApiResp) (a0 a1 : Option (List Nat))
    (h0 : o1 true 0 = .http 429 a0) (h1 : o1 true 1 = .http 429 a1)
    (h2 : terminalClass (o2 true 0) = true) :
    (call_gemini_tts_api o1 true).audio = none ∧
    (call_gemini_tts_api o1 true).fallbackRequests = 2 ∧
    (call_gemini_tts_api o1 true).sleeps = [30, 60] ∧
    (call_gemini_tts_api o2 true).audio = none ∧
    (call_gemini_tts_api o2 true).fallbackRequests = 1 ∧
    (call_gemini_tts_api o2 true).sleeps = [] ∧
    (∀ o : Bool → Nat → ApiResp,
      (call_gemini_tts_api o true).fallbackRequests ≤ 2 ∧
      (call_gemini_tts_api o true).escalations = 0) := by
  have hr := tierCall_true_429_429 (o1 true) a0 a1 h0 h1
  have ht := tierCall_true_terminal (o2 true) h2
  refine ⟨?_, ?_, ?_, ?_, ?_, ?_, ?_⟩
  · simp [call_gemini_tts_api, callFallback, hr]
  · simp [call_gemini_tts_api, callFallback, hr]
  · simp [call_gemini_tts_api, callFallback, hr]
  · simp [call_gemini_tts_api, callFallback, ht]
  · simp [call_gemini_tts_api, callFallback, ht]
  · simp [call_gemini_tts_api, callFallback, ht]
  · intro o
    have hf := callFallback_escalations o
    exact ⟨by simpa [call_gemini_tts_api] using hf.2.2.2,
           by simpa [call_gemini_tts_api] using hf.1⟩

/-- Witness for C2 as amended, at concrete oracles: `c2Oracle` rate limits the
first two fallback requests, `c1Oracle` answers a quota response. -/
theorem C2_witness :
    (call_gemini_tts_api c2Oracle true).audio = none ∧
    (call_gemini_tts_api c2Oracle true).fallbackRequests = 2 ∧
    (call_gemini_tts_api c2Oracle true).sleeps = [30, 60] ∧
    (call_gemini_tts_api c1Oracle true).audio = none ∧
    (call_gemini_tts_api c1Oracle true).fallbackRequests = 1 ∧
    (call_gemini_tts_api c1Oracle true).sleeps = [] :=
  ⟨(C2_amended c2Oracle c1Oracle none none rfl rfl (by decide)).1,
   (C2_amended c2Oracle c1Oracle none none rfl rfl (by decide)).2.1,
   (C2_amended c2Oracle c1Oracle none none rfl rfl (by decide)).2.2.1,
   (C2_amended c2Oracle c1Oracle none none rfl rfl (by decide)).2.2.2.1,
   (C2_amended c2Oracle c1Oracle none none rfl rfl (by decide)).2.2.2.2.1,
   (C2_amended c2Oracle c1Oracle none none rfl rfl (by decide)).2.2.2.2.2.1⟩

/-- C9.  Every invocation of `call_gemini_tts_api` terminates (the embedding is
a total function, with escalation structurally bounded to a single fallback
hop), every top-level (primary) invocation issues exactly one request on the
primary tier and at most two on the fallback tier - hence at most three HTTP
requests in total - and at most one escalation happens. -/
theorem C9_request_bound (o : Bool → Nat → ApiResp) (use_fallback : Bool) :
    (call_gemini_tts_api o false).primaryRequests = 1 ∧
    (call_gemini_tts_api o use_fallback).fallbackRequests ≤ 2 ∧
    (call_gemini_tts_api o use_fallback).primaryRequests +
      (call_gemini_tts_api o use_fallback).fallbackRequests ≤ 3 ∧
    (call_gemini_tts_api o use_fallback).escalations ≤ 1 := by
  have hf := callFallback_escalations o
  have hprim : (call_gemini_tts_api o false).primaryRequests = 1 ∧
      (call_gemini_tts_api o false).fallbackRequests ≤ 2 ∧
      (call_gemini_tts_api o false).escalations ≤ 1 := by
    rcases tierCall_false_cases (o false) with ⟨b, hb, hs⟩ | hs
    · simp [call_gemini_tts_api, hs]
    · refine ⟨by simp [call_gemini_tts_api, hs], ?_, by simp [call_gemini_tts_api, hs]⟩
      simpa [call_gemini_tts_api, hs] using hf.2.2.2
  rcases use_fallback with _ | _
  · exact ⟨hprim.1, hprim.2.1, by omega, hprim.2.2⟩
  · refine ⟨hprim.1, ?_, ?_, ?_⟩
    · simpa [call_gemini_tts_api] using hf.2.2.2
    · have h1 : (call_gemini_tts_api o true).primaryRequests = 0 := by
        simpa [call_gemini_tts_api] using hf.2.1
      have h2 : (call_gemini_tts_api o true).fallbackRequests ≤ 2 := by
        simpa [call_gemini_tts_api] using hf.2.2.2
      omega
    · simpa [call_gemini_tts_api] using Nat.le_of_eq hf.1 |>.trans (by omega)

/-! ## Model of the batch driver (`main`, generate_tts_gemini.py lines 345-455)

The progress journal is a JSON object with three lists of file keys; the story
corpus is a nested mapping.  File writes and the printed output are not part of
any claim except through the `files` and count fields tracked below.
`save_progress` (a rewrite of the journal file after every item) has no
observable effect inside a single run and is noted where it happens. -/

/-- The progress journal (`.tts_gemini_progress.json`): three lists of file
keys, as produced by `load_progress` (lines 173-178). -/
structure Progress where
  completed : List String
  failed : List String
  skipped : List String
deriving DecidableEq, Repr

/-- The journal installed by `--reset` (lines 364-366), also the
`load_progress` default when no journal file exists. -/
def resetProgress : Progress := ⟨[], [], []⟩

/-- The story corpus `all_stories.json` as accessed by `main`: `hasW w` models
`worldview in stories`, `hasE w e` models `exercise in stories[worldview]`, and
`text w e g` models `stories[worldview][exercise].get(grade)`. -/
structure Stories where
  hasW : String → Bool
  hasE : String → String → Bool
  text : String → String → String → Option String

/-- The two command-line flags that drive the journal logic. -/
structure Args where
  dryRun : Bool
  retryFailed : Bool
deriving DecidableEq, Repr

/-- Model of `get_file_key` (lines 185-187). -/
def get_file_key (worldview exercise grade : String) : String :=
  worldview ++ "/" ++ exercise ++ "_" ++ grade

/-- The list `ALL_WORLDVIEWS` (line 41). -/
def ALL_WORLDVIEWS : List String := ["fantasy", "sports", "idol", "sf", "zombie", "spy"]

/-- The list `MVP_EXERCISES` (lines 44-51). -/
def MVP_EXERCISES : List String :=
  ["squat", "lunge", "bicep_curl", "arm_raise", "high_knees", "plank_hold"]

/-- The list `NEW_EXERCISES` (line 54). -/
def NEW_EXERCISES : List String := ["lunge", "bicep_curl", "arm_raise"]

/-- The list `GRADES` (line 60). -/
def GRADES : List String := ["perfect", "good", "normal"]

/-- The check `text = stories[w][e].get(g); if not text:` (lines 418-421): the
item is attempted only when the grade is present with a non-empty line (an
empty string is falsy in Python). -/
def textPresent (stories : Stories) (w e g : String) : Bool :=
  match stories.text w e g with
  | none => false
  | some t => !(t == "")

/-- Result of `generate_tts` (lines 310-339) together with its observable
effects: whether `call_gemini_tts_api` was invoked and whether the wav file was
written. -/
structure TtsResult where
  success : Bool
  apiCalled : Bool
  fileWritten : Bool
deriving DecidableEq, Repr

/-- Model of `generate_tts` (lines 310-339).  With `--dry-run` it returns `True` before
any network call or file write; otherwise it calls the API, fails when no audio
came back, and otherwise writes the file, `saveOk` being the outcome of
`save_audio_file`. -/
def generate_tts (dry_run : Bool) (audio : Option (List Nat)) (saveOk : Bool) :
    TtsResult :=
  if dry_run then ⟨true, false, false⟩
  else
    match audio with
    | none => ⟨false, true, false⟩
    | some _ => if saveOk then ⟨true, true, true⟩ else ⟨false, true, false⟩

/-- The per-item journal update of `main` (lines 425-436): on success the key
is appended to `completed` unless already present and removed from `failed` if
present (`list.remove`, first occurrence); on failure the key is appended to
`failed` unless already present.  `skipped` is never touched. -/
def updateJournal (p : Progress) (key : String) (success : Bool) : Progress :=
  if success then
    { p with
      completed := if key ∈ p.completed then p.completed else p.completed ++ [key]
      failed := if key ∈ p.failed then p.failed.erase key else p.failed }
  else
    { p with
      failed := if key ∈ p.failed then p.failed else p.failed ++ [key] }

/-- Running state of one `main` invocation: the in-memory journal plus the keys
passed to `generate_tts` (`attempted`), the keys for which
`call_gemini_tts_api` was invoked (`apiCalls`), the keys whose wav file was
written (`files`), and the three counters printed in the summary. -/
structure RunState where
  progress : Progress
  attempted : List String
  apiCalls : List String
  files : List String
  successCount : Nat
  failCount : Nat
  skipCount : Nat
deriving DecidableEq, Repr

/-- State at the top of the worldview loop (line 398). -/
def initState (p : Progress) : RunState := ⟨p, [], [], [], 0, 0, 0⟩

/-- The body of an attempted item (lines 423-438): `generate_tts` followed by
the journal update and `save_progress` (the disk write has no further
observable effect here).  `net key` gives the per-item network oracle handed to
`call_gemini_tts_api`, `saveOk key` the file-write outcome. -/
def attemptItem (args : Args) (net : String → Bool → Nat → ApiResp)
    (saveOk : String → Bool) (key : String) (st : RunState) : RunState :=
  let r := generate_tts args.dryRun
    (call_gemini_tts_api (net key) false).audio (saveOk key)
  { progress := updateJournal st.progress key r.success
    attempted := st.attempted ++ [key]
    apiCalls := st.apiCalls ++ (if r.apiCalled then [key] else [])
    files := st.files ++ (if r.fileWritten then [key] else [])
    successCount := st.successCount + (if r.success then 1 else 0)
    failCount := st.failCount + (if r.success then 0 else 1)
    skipCount := st.skipCount }

/-- One iteration of the grade loop of `main` (lines 408-441): with
`--retry-failed` only keys in the failed list are attempted; otherwise keys in
the completed list are skipped (counted); then the story text is looked up and
the item is attempted only when a non-empty line exists. -/
def processItem (args : Args) (stories : Stories)
    (net : String → Bool → Nat → ApiResp) (saveOk : String → Bool)
    (worldview exercise grade : String) (st : RunState) : RunState :=
  let key := get_file_key worldview exercise grade
  if args.retryFailed then
    if key ∈ st.progress.failed then
      (if textPresent stories worldview exercise grade then
        attemptItem args net saveOk key st
      else st)
    else st
  else if key ∈ st.progress.completed then
    { st with skipCount := st.skipCount + 1 }
  else
    (if textPresent stories worldview exercise grade then
      attemptItem args net saveOk key st
    else st)

/-- The grade loop (`for grade in GRADES`, line 408). -/
def runGrades (args : Args) (stories : Stories)
    (net : String → Bool → Nat → ApiResp) (saveOk : String → Bool)
    (worldview exercise : String) (grades : List String) (st : RunState) : RunState :=
  grades.foldl (fun st grade => processItem args stories net saveOk worldview exercise grade st) st

/-- The exercise loop (lines 403-406), skipping exercises missing from the
stories of the worldview with a warning. -/
def runExercises (args : Args) (stories : Stories)
    (net : String → Bool → Nat → ApiResp) (saveOk : String → Bool)
    (worldview : String) (exercises grades : List String) (st : RunState) : RunState :=
  exercises.foldl
    (fun st exercise =>
      if stories.hasE worldview exercise then
        runGrades args stories net saveOk worldview exercise grades st
      else st) st

/-- The worldview loop (lines 398-401), skipping worldviews missing from the
stories with a warning. -/
def runWorldviews (args : Args) (stories : Stories)
    (net : String → Bool → Nat → ApiResp) (saveOk : String → Bool)
    (worldviews exercises grades : List String) (st : RunState) : RunState :=
  worldviews.foldl
    (fun st worldview =>
      if stories.hasW worldview then
        runExercises args stories net saveOk worldview exercises grades st
      else st) st

/-- One whole run of the batch loop of `main` over the selected worldview,
exercise and grade lists, starting from journal `p`. -/
def mainLoop (args : Args) (stories : Stories)
    (net : String → Bool → Nat → ApiResp) (saveOk : String → Bool)
    (worldviews exercises grades : List String) (p : Progress) : RunState :=
  runWorldviews args stories net saveOk worldviews exercises grades (initState p)

/-- Success of one attempt of `key`, as computed inside `attemptItem`. -/
def itemSuccess (args : Args) (net : String → Bool → Nat → ApiResp)
    (saveOk : String → Bool) (key : String) : Bool :=
  (generate_tts args.dryRun (call_gemini_tts_api (net key) false).audio (saveOk key)).success

/-- The journal consistency property: no key is in both the completed and the
failed list. -/
def journalDisjoint (p : Progress) : Prop :=
  ∀ k ∈ p.completed, k ∉ p.failed

/-! ### Fold helpers and step lemmas -/

theorem foldl_preserve {α β : Type _} (f : β → α → β) (P : β → Prop)
    (h : ∀ b, ∀ a, P b → P (f b a)) :
    ∀ (l : List α) (b : β), P b → P (l.foldl f b) := by
  intro l
  induction l with
  | nil => intro b hb; simpa using hb
  | cons a l ih =>
    intro b hb
    simpa [List.foldl_cons] using ih (f b a) (h b a hb)

theorem foldl_preserve_mem {α β : Type _} (f : β → α → β) (P : β → Prop) :
    ∀ (l : List α), (∀ b, ∀ a ∈ l, P b → P (f b a)) →
      ∀ b, P b → P (l.foldl f b) := by
  intro l
  induction l with
  | nil => intro _ b hb; simpa using hb
  | cons a l ih =>
    intro h b hb
    simpa [List.foldl_cons] using
      ih (fun b x hx hb => h b x (List.mem_cons_of_mem a hx) hb) (f b a)
        (h b a (List.mem_cons_self a l) hb)

theorem updateJournal_skipped (p : Progress) (key : String) (success : Bool) :
    (updateJournal p key success).skipped = p.skipped := by
  unfold updateJournal; split <;> rfl

theorem updateJournal_completed_mono (p : Progress) (key k : String) (success : Bool)
    (h : k ∈ p.completed) : k ∈ (updateJournal p key success).completed := by
  unfold updateJournal
  split
  · simp only
    split
    · exact h
    · exact List.mem_append_left _ h
  · exact h

theorem updateJournal_disjoint (p : Progress) (key : String) (success : Bool)
    (h1 : journalDisjoint p) (h2 : p.failed.Nodup)
    (hc : success = false → key ∈ p.failed ∨ key ∉ p.completed) :
    journalDisjoint (updateJournal p key success) ∧
      (updateJournal p key success).failed.Nodup := by
  unfold updateJournal
  rcases success with _ | _
  · simp only [Bool.false_eq_true, if_false]
    rcases hc rfl with hk | hk
    · constructor
      · intro k hkc
        simp only [hk, if_pos]
        exact h1 k hkc
      · simpa [hk] using h2
    · by_cases hkf : key ∈ p.failed
      · constructor
        · intro k hkc; simpa [hkf] using h1 k hkc
        · simpa [hkf] using h2
      · constructor
        · intro k hkc
          simp only [hkf, if_neg, not_false_iff]
          intro hmem
          rcases List.mem_append.mp hmem with hl | hr
          · exact h1 k hkc hl
          · exact hk (by simpa using (List.mem_singleton.mp hr) ▸ hkc)
        · simp only [hkf, if_neg, not_false_iff]
          exact h2.append (List.nodup_singleton key)
            (fun a ha hb => hkf (List.mem_singleton.mp hb ▸ ha))
  · simp only [if_true]
    constructor
    · intro k hkc
      by_cases hkey : key ∈ p.completed
      · simp only [hkey, if_pos] at hkc
        by_cases hkf : key ∈ p.failed
        · simp only [hkf, if_pos]
          intro hmem
          exact h1 k hkc (List.mem_of_mem_erase hmem)
        · simp only [hkf, if_neg, not_false_iff]
          exact h1 k hkc
      · simp only [hkey, if_neg, not_false_iff] at hkc
        rcases List.mem_append.mp hkc with hl | hr
        · by_cases hkf : key ∈ p.failed
          · simp only [hkf, if_pos]
            intro hmem
            exact h1 k hl (List.mem_of_mem_erase hmem)
          · simp only [hkf, if_neg, not_false_iff]
            exact h1 k hl
        · have hk : k = key := List.mem_singleton.mp hr
          subst hk
          by_cases hkf : k ∈ p.failed
          · simp only [hkf, if_pos]
            exact h2.not_mem_erase
          · simp [hkf]
    · by_cases hkf : key ∈ p.failed
      · simpa [hkf] using h2.erase key
      · simpa [hkf] using h2

/-- The journal invariant tracked through a run: completed and failed share no
key, and the failed list has no duplicate entries. -/
def journalInv (st : RunState) : Prop :=
  journalDisjoint st.progress ∧ st.progress.failed.Nodup

theorem processItem_inv (args : Args) (stories : Stories)
    (net : String → Bool → Nat → ApiResp) (saveOk : String → Bool)
    (w e g : String) (st : RunState) (h : journalInv st) :
    journalInv (processItem args stories net saveOk w e g st) := by
  unfold processItem
  dsimp only
  split_ifs with hretry hfail htext hcomp htext2
  · exact updateJournal_disjoint st.progress _ _ h.1 h.2 (fun _ => Or.inl hfail)
  · exact h
  · exact h
  · exact h
  · exact updateJournal_disjoint st.progress _ _ h.1 h.2 (fun _ => Or.inr hcomp)
  · exact h

theorem mainLoop_inv (args : Args) (stories : Stories)
    (net : String → Bool → Nat → ApiResp) (saveOk : String → Bool)
    (worldviews exercises grades : List String) (p : Progress)
    (h1 : journalDisjoint p) (h2 : p.failed.Nodup) :
    journalInv (mainLoop args stories net saveOk worldviews exercises grades p) := by
  unfold mainLoop runWorldviews
  refine foldl_preserve _ journalInv ?_ worldviews (initState p) ⟨h1, h2⟩
  intro st w hst
  split
  · unfold runExercises
    refine foldl_preserve _ journalInv ?_ exercises st hst
    intro st e hst
    split
    · unfold runGrades
      refine foldl_preserve _ journalInv ?_ grades st hst
      intro st g hst
      exact processItem_inv args stories net saveOk w e g st hst
    · exact hst
  · exact hst

/-! ### Claim theorems about the journal -/

/-- A one-item corpus: worldview `fantasy`, exercise `squat`, grade `perfect`. -/
def demoStories : Stories :=
  ⟨fun _ => true, fun _ _ => true,
   fun w e g =>
     if w = "fantasy" ∧ e = "squat" ∧ g = "perfect" then some "Well done, hero."
     else none⟩

/-- A network oracle that always reports a transport fault (it is never
consulted by a dry run). -/
def deadNet : String → Bool → Nat → ApiResp := fun _ _ _ => .err

/-- Counterexample for C3 as stated.  The journal whose failed list holds the
same key twice has disjoint completed and failed lists, yet after one
successful retry of that key (here a dry run, which the source records as a
success) the key sits in both lists: `append` adds it to completed while
`list.remove` deletes only the first of its two failed entries. -/
theorem C3_counterexample :
    journalDisjoint ⟨[], ["fantasy/squat_perfect", "fantasy/squat_perfect"], []⟩ ∧
    "fantasy/squat_perfect" ∈
      (mainLoop ⟨true, true⟩ demoStories deadNet (fun _ => true)
        ["fantasy"] ["squat"] ["perfect"]
        ⟨[], ["fantasy/squat_perfect", "fantasy/squat_perfect"], []⟩).progress.completed ∧
    "fantasy/squat_perfect" ∈
      (mainLoop ⟨true, true⟩ demoStories deadNet (fun _ => true)
        ["fantasy"] ["squat"] ["perfect"]
        ⟨[], ["fantasy/squat_perfect", "fantasy/squat_perfect"], []⟩).progress.failed := by
  refine ⟨?_, by decide, by decide⟩
  intro k hk
  simp at hk

/-- C3 as amended: starting from a journal whose completed and failed lists are
disjoint and whose failed list is duplicate-free (as every journal written by
the script itself is), the per-item journal updates keep the two lists
disjoint, so they are disjoint after any run of the batch driver. -/
theorem C3_amended (args : Args) (stories : Stories)
    (net : String → Bool → Nat → ApiResp) (saveOk : String → Bool)
    (worldviews exercises grades : List String) (p : Progress)
    (h1 : journalDisjoint p) (h2 : p.failed.Nodup) :
    journalDisjoint
      (mainLoop args stories net saveOk worldviews exercises grades p).progress :=
  (mainLoop_inv args stories net saveOk worldviews exercises grades p h1 h2).1

/-- Witness for C3 as amended at a concrete run: a failed key is retried
successfully, lands in completed, and the theorem yields that it is no longer
in failed. -/
theorem C3_witness :
    "fantasy/squat_perfect" ∉
      (mainLoop ⟨true, true⟩ demoStories deadNet (fun _ => true)
        ["fantasy"] ["squat"] ["perfect"]
        ⟨[], ["fantasy/squat_perfect"], []⟩).progress.failed :=
  C3_amended ⟨true, true⟩ demoStories deadNet (fun _ => true)
    ["fantasy"] ["squat"] ["perfect"] ⟨[], ["fantasy/squat_perfect"], []⟩
    (fun k hk => by simp at hk) (by simp)
    "fantasy/squat_perfect" (by decide)

/-- C10.  No run of the batch driver ever changes the skipped list: every
per-item update touches only completed and failed, so the skipped list loaded
at startup is carried through unchanged; the `--reset` journal is the one with
three empty lists. -/
theorem C10_skipped_frame (args : Args) (stories : Stories)
    (net : String → Bool → Nat → ApiResp) (saveOk : String → Bool)
    (worldviews exercises grades : List String) (p : Progress) :
    (mainLoop args stories net saveOk worldviews exercises grades p).progress.skipped
      = p.skipped ∧
    resetProgress = ⟨[], [], []⟩ := by
  refine ⟨?_, rfl⟩
  unfold mainLoop runWorldviews
  refine foldl_preserve _ (fun st => st.progress.skipped = p.skipped) ?_ worldviews
    (initState p) rfl
  intro st w hst
  split
  · unfold runExercises
    refine foldl_preserve _ (fun st => st.progress.skipped = p.skipped) ?_ exercises st hst
    intro st e hst
    split
    · unfold runGrades
      refine foldl_preserve _ (fun st => st.progress.skipped = p.skipped) ?_ grades st hst
      intro st g hst
      unfold processItem
      dsimp only
      split_ifs with hretry hfail htext hcomp htext2
      · simpa [attemptItem, updateJournal_skipped] using hst
      · exact hst
      · exact hst
      · exact hst
      · simpa [attemptItem, updateJournal_skipped] using hst
      · exact hst
    · exact hst
  · exact hst

/-- Counterexample for C4 as stated.  C4 quantifies over every journal state;
for the (hand-craftable) journal whose completed and failed lists both hold the
key, `--retry-failed` attempts that key even though it is present in the
completed list, because the retry filter (line 411) consults only the failed
list. -/
theorem C4_counterexample :
    (mainLoop ⟨true, true⟩ demoStories deadNet (fun _ => true)
      ["fantasy"] ["squat"] ["perfect"]
      ⟨["fantasy/squat_perfect"], ["fantasy/squat_perfect"], []⟩).attempted
      = ["fantasy/squat_perfect"] ∧
    "fantasy/squat_perfect" ∈
      (⟨["fantasy/squat_perfect"], ["fantasy/squat_perfect"], []⟩ : Progress).completed := by
  decide

/-- Invariant of a `--retry-failed` run: every key attempted so far was in the
initial failed list, and the current failed list is contained in the initial
one. -/
def retryInv (p0 : Progress) (st : RunState) : Prop :=
  (∀ k ∈ st.attempted, k ∈ p0.failed) ∧ (∀ k ∈ st.progress.failed, k ∈ p0.failed)

theorem updateJournal_failed_subset (p : Progress) (key : String) (success : Bool)
    (hin : success = false → key ∈ p.failed) :
    ∀ k ∈ (updateJournal p key success).failed, k ∈ p.failed := by
  intro k hk
  unfold updateJournal at hk
  rcases success with _ | _
  · rw [if_neg (by simp)] at hk
    dsimp only at hk
    rw [if_pos (hin rfl)] at hk
    exact hk
  · rw [if_pos rfl] at hk
    dsimp only at hk
    by_cases hkey : key ∈ p.failed
    · rw [if_pos hkey] at hk
      exact List.mem_of_mem_erase hk
    · rw [if_neg hkey] at hk
      exact hk

theorem processItem_retry_inv (args : Args) (stories : Stories)
    (net : String → Bool → Nat → ApiResp) (saveOk : String → Bool)
    (w e g : String) (st : RunState) (p0 : Progress)
    (hr : args.retryFailed = true) (h : retryInv p0 st) :
    retryInv p0 (processItem args stories net saveOk w e g st) := by
  unfold processItem
  dsimp only
  rw [hr]
  simp only [if_true]
  split_ifs with hfail htext
  · unfold attemptItem
    dsimp only
    constructor
    · intro k hk
      rcases List.mem_append.mp hk with hl | hsing
      · exact h.1 k hl
      · exact (List.mem_singleton.mp hsing) ▸ h.2 _ hfail
    · intro k hk
      exact h.2 k (updateJournal_failed_subset st.progress _ _ (fun _ => hfail) k hk)
  · exact h
  · exact h

/-- C4 as amended: for every journal whose completed and failed lists are
disjoint, a `--retry-failed` run attempts only keys of the failed list of the
journal, and never a key of its completed list.  (As stated, over all journal
states, the second half fails: see the counterexample.) -/
theorem C4_amended (dry : Bool) (stories : Stories)
    (net : String → Bool → Nat → ApiResp) (saveOk : String → Bool)
    (worldviews exercises grades : List String) (p : Progress)
    (hd : journalDisjoint p) :
    ∀ k ∈ (mainLoop ⟨dry, true⟩ stories net saveOk
        worldviews exercises grades p).attempted,
      k ∈ p.failed ∧ k ∉ p.completed := by
  have hinv : retryInv p
      (mainLoop ⟨dry, true⟩ stories net saveOk worldviews exercises grades p) := by
    unfold mainLoop runWorldviews
    refine foldl_preserve _ (retryInv p) ?_ worldviews (initState p)
      ⟨fun k hk => by simp [initState] at hk, fun k hk => hk⟩
    intro st w hst
    split
    · unfold runExercises
      refine foldl_preserve _ (retryInv p) ?_ exercises st hst
      intro st e hst
      split
      · unfold runGrades
        refine foldl_preserve _ (retryInv p) ?_ grades st hst
        intro st g hst
        exact processItem_retry_inv _ stories net saveOk w e g st p rfl hst
      · exact hst
    · exact hst
  intro k hk
  have hkf : k ∈ p.failed := hinv.1 k hk
  refine ⟨hkf, fun hkc => hd k hkc hkf⟩

/-- Witness for C4 as amended at a concrete disjoint journal: the single
attempted key is reported to be in the failed list and not in the completed
list. -/
theorem C4_witness :
    "fantasy/squat_perfect" ∈
      (⟨["fantasy/lunge_good"], ["fantasy/squat_perfect"], []⟩ : Progress).failed ∧
    "fantasy/squat_perfect" ∉
      (⟨["fantasy/lunge_good"], ["fantasy/squat_perfect"], []⟩ : Progress).completed :=
  C4_amended true demoStories deadNet (fun _ => true)
    ["fantasy"] ["squat"] ["perfect"]
    ⟨["fantasy/lunge_good"], ["fantasy/squat_perfect"], []⟩
    (fun k hk hf => by simp at hk hf; simp [hk] at hf)
    "fantasy/squat_perfect" (by decide)

/-- Counterexample for C6 as stated.  A dry run of a single eligible item makes
no API call and writes no file, but it does change the journal: the item key
is appended to the completed list (the source treats the dry-run `True` of
`generate_tts` as a success). -/
theorem C6_counterexample :
    (mainLoop ⟨true, false⟩ demoStories deadNet (fun _ => true)
      ["fantasy"] ["squat"] ["perfect"] resetProgress).apiCalls = [] ∧
    (mainLoop ⟨true, false⟩ demoStories deadNet (fun _ => true)
      ["fantasy"] ["squat"] ["perfect"] resetProgress).files = [] ∧
    (mainLoop ⟨true, false⟩ demoStories deadNet (fun _ => true)
      ["fantasy"] ["squat"] ["perfect"] resetProgress).progress.completed
      = ["fantasy/squat_perfect"] ∧
    (mainLoop ⟨true, false⟩ demoStories deadNet (fun _ => true)
      ["fantasy"] ["squat"] ["perfect"] resetProgress).progress ≠ resetProgress := by
  decide

/-- C6 as amended: in dry-run mode an eligible work item (worldview and
exercise present, a non-empty text line, key not yet completed) causes no
remote call and produces no audio file, but the journal does change: the run
records the item as succeeded, appending its key to the completed list. -/
theorem C6_amended (stories : Stories) (net : String → Bool → Nat → ApiResp)
    (saveOk : String → Bool) (w e g t : String) (p : Progress)
    (hW : stories.hasW w = true) (hE : stories.hasE w e = true)
    (hT : stories.text w e g = some t) (ht : t ≠ "")
    (hC : get_file_key w e g ∉ p.completed) :
    (mainLoop ⟨true, false⟩ stories net saveOk [w] [e] [g] p).apiCalls = [] ∧
    (mainLoop ⟨true, false⟩ stories net saveOk [w] [e] [g] p).files = [] ∧
    (mainLoop ⟨true, false⟩ stories net saveOk [w] [e] [g] p).progress
      = updateJournal p (get_file_key w e g) true ∧
    get_file_key w e g ∈
      (mainLoop ⟨true, false⟩ stories net saveOk [w] [e] [g] p).progress.completed := by
  have htp : textPresent stories w e g = true := by
    simp [textPresent, hT, ht]
  have hrun : mainLoop ⟨true, false⟩ stories net saveOk [w] [e] [g] p
      = attemptItem ⟨true, false⟩ net saveOk (get_file_key w e g) (initState p) := by
    simp [mainLoop, runWorldviews, runExercises, runGrades, hW, hE, processItem,
      initState, hC, htp]
  have hc2 : get_file_key w e g ∈ (updateJournal p (get_file_key w e g) true).completed := by
    unfold updateJournal
    rw [if_pos rfl]
    dsimp only
    rw [if_neg hC]
    exact List.mem_append_right _ (List.mem_singleton_self _)
  rw [hrun]
  refine ⟨by simp [attemptItem, generate_tts, initState], ?_, ?_, ?_⟩
  · simp [attemptItem, generate_tts, initState]
  · simp [attemptItem, generate_tts, initState]
  · simpa [attemptItem, generate_tts, initState] using hc2

/-- Witness for C6 as amended, at the concrete one-item corpus: the dry run
calls no API, writes no file, and marks the key completed. -/
theorem C6_witness :
    (mainLoop ⟨true, false⟩ demoStories deadNet (fun _ => true)
      ["fantasy"] ["squat"] ["perfect"] resetProgress).apiCalls = [] ∧
    (mainLoop ⟨true, false⟩ demoStories deadNet (fun _ => true)
      ["fantasy"] ["squat"] ["perfect"] resetProgress).progress
      = updateJournal resetProgress "fantasy/squat_perfect" true ∧
    "fantasy/squat_perfect" ∈
      (mainLoop ⟨true, false⟩ demoStories deadNet (fun _ => true)
        ["fantasy"] ["squat"] ["perfect"] resetProgress).progress.completed :=
  ⟨(C6_amended demoStories deadNet (fun _ => true) "fantasy" "squat" "perfect"
      "Well done, hero." resetProgress rfl rfl (by decide) (by decide) (by decide)).1,
   (C6_amended demoStories deadNet (fun _ => true) "fantasy" "squat" "perfect"
      "Well done, hero." resetProgress rfl rfl (by decide) (by decide) (by decide)).2.2.1,
   (C6_amended demoStories deadNet (fun _ => true) "fantasy" "squat" "perfect"
      "Well done, hero." resetProgress rfl rfl (by decide) (by decide) (by decide)).2.2.2⟩

/-- C7.  When the story corpus holds no text line for a work item, the item is
skipped with a warning: `generate_tts` is not invoked, no API call and no file
write happen for it, and the journal is left unchanged - the key is recorded in
neither the completed nor the failed list.  The surrounding loop then proceeds
to the next item (`continue`). -/
theorem C7_missing_text_skips (args : Args) (stories : Stories)
    (net : String → Bool → Nat → ApiResp) (saveOk : String → Bool)
    (w e g : String) (st : RunState) (h : stories.text w e g = none) :
    (processItem args stories net saveOk w e g st).progress = st.progress ∧
    (processItem args stories net saveOk w e g st).attempted = st.attempted ∧
    (processItem args stories net saveOk w e g st).apiCalls = st.apiCalls ∧
    (processItem args stories net saveOk w e g st).files = st.files := by
  have htp : textPresent stories w e g = false := by simp [textPresent, h]
  unfold processItem
  dsimp only
  simp only [htp, Bool.false_eq_true, if_false]
  split_ifs <;> simp

/-- Witness for C7 at a concrete item with no text line: grade `good` is absent
from the one-item corpus, and the processed state keeps journal, attempts, API
calls and files unchanged. -/
theorem C7_witness :
    (processItem ⟨false, false⟩ demoStories deadNet (fun _ => true)
      "fantasy" "squat" "good" (initState resetProgress)).progress
      = (initState resetProgress).progress ∧
    (processItem ⟨false, false⟩ demoStories deadNet (fun _ => true)
      "fantasy" "squat" "good" (initState resetProgress)).attempted
      = (initState resetProgress).attempted :=
  ⟨(C7_missing_text_skips ⟨false, false⟩ demoStories deadNet (fun _ => true)
      "fantasy" "squat" "good" (initState resetProgress) (by decide)).1,
   (C7_missing_text_skips ⟨false, false⟩ demoStories deadNet (fun _ => true)
      "fantasy" "squat" "good" (initState resetProgress) (by decide)).2.1⟩

/-! ### Idempotence of a fully successful run (C5) -/

theorem processItem_skip_completed (args : Args) (stories : Stories)
    (net : String → Bool → Nat → ApiResp) (saveOk : String → Bool)
    (w e g : String) (st : RunState) (hnr : args.retryFailed = false)
    (hc : get_file_key w e g ∈ st.progress.completed) :
    processItem args stories net saveOk w e g st
      = { st with skipCount := st.skipCount + 1 } := by
  unfold processItem
  dsimp only
  rw [hnr]
  simp [hc]

theorem processItem_attempt (args : Args) (stories : Stories)
    (net : String → Bool → Nat → ApiResp) (saveOk : String → Bool)
    (w e g : String) (st : RunState) (hnr : args.retryFailed = false)
    (hc : get_file_key w e g ∉ st.progress.completed)
    (htext : textPresent stories w e g = true) :
    processItem args stories net saveOk w e g st
      = attemptItem args net saveOk (get_file_key w e g) st := by
  unfold processItem
  dsimp only
  rw [hnr]
  simp [hc, htext]

theorem updateJournal_completed_self (p : Progress) (key : String) :
    key ∈ (updateJournal p key true).completed := by
  unfold updateJournal
  rw [if_pos rfl]
  dsimp only
  by_cases hc : key ∈ p.completed
  · rwa [if_pos hc]
  · rw [if_neg hc]
    exact List.mem_append_right _ (List.mem_singleton_self _)

theorem attemptItem_attempted_self (args : Args)
    (net : String → Bool → Nat → ApiResp) (saveOk : String → Bool)
    (key : String) (st : RunState) :
    key ∈ (attemptItem args net saveOk key st).attempted := by
  unfold attemptItem
  exact List.mem_append_right _ (List.mem_singleton_self _)

theorem attemptItem_success_completed (args : Args)
    (net : String → Bool → Nat → ApiResp) (saveOk : String → Bool)
    (key : String) (st : RunState)
    (hs : itemSuccess args net saveOk key = true) :
    key ∈ (attemptItem args net saveOk key st).progress.completed := by
  unfold itemSuccess at hs
  unfold attemptItem
  dsimp only
  rw [hs]
  exact updateJournal_completed_self st.progress key

theorem processItem_attempted_mono (args : Args) (stories : Stories)
    (net : String → Bool → Nat → ApiResp) (saveOk : String → Bool)
    (w e g : String) (st : RunState) (k : String) (h : k ∈ st.attempted) :
    k ∈ (processItem args stories net saveOk w e g st).attempted := by
  unfold processItem attemptItem
  dsimp only
  split_ifs <;> first
    | exact h
    | exact List.mem_append_left _ h

theorem processItem_completed_mono (args : Args) (stories : Stories)
    (net : String → Bool → Nat → ApiResp) (saveOk : String → Bool)
    (w e g : String) (st : RunState) (k : String)
    (h : k ∈ st.progress.completed) :
    k ∈ (processItem args stories net saveOk w e g st).progress.completed := by
  unfold processItem attemptItem
  dsimp only
  split_ifs <;> first
    | exact h
    | exact updateJournal_completed_mono st.progress _ k _ h

theorem runWorldviews_attempted_mono (args : Args) (stories : Stories)
    (net : String → Bool → Nat → ApiResp) (saveOk : String → Bool)
    (worldviews exercises grades : List String) (st : RunState) (k : String)
    (h : k ∈ st.attempted) :
    k ∈ (runWorldviews args stories net saveOk worldviews exercises grades st).attempted := by
  unfold runWorldviews
  refine foldl_preserve _ (fun st => k ∈ st.attempted) ?_ worldviews st h
  intro st w hst
  split
  · unfold runExercises
    refine foldl_preserve _ (fun st => k ∈ st.attempted) ?_ exercises st hst
    intro st e hst
    split
    · unfold runGrades
      refine foldl_preserve _ (fun st => k ∈ st.attempted) ?_ grades st hst
      intro st g hst
      exact processItem_attempted_mono args stories net saveOk w e g st k hst
    · exact hst
  · exact hst

theorem runWorldviews_completed_mono (args : Args) (stories : Stories)
    (net : String → Bool → Nat → ApiResp) (saveOk : String → Bool)
    (worldviews exercises grades : List String) (st : RunState) (k : String)
    (h : k ∈ st.progress.completed) :
    k ∈ (runWorldviews args stories net saveOk
      worldviews exercises grades st).progress.completed := by
  unfold runWorldviews
  refine foldl_preserve _ (fun st => k ∈ st.progress.completed) ?_ worldviews st h
  intro st w hst
  split
  · unfold runExercises
    refine foldl_preserve _ (fun st => k ∈ st.progress.completed) ?_ exercises st hst
    intro st e hst
    split
    · unfold runGrades
      refine foldl_preserve _ (fun st => k ∈ st.progress.completed) ?_ grades st hst
      intro st g hst
      exact processItem_completed_mono args stories net saveOk w e g st k hst
    · exact hst
  · exact hst

theorem runExercises_attempted_mono (args : Args) (stories : Stories)
    (net : String → Bool → Nat → ApiResp) (saveOk : String → Bool)
    (w : String) (exercises grades : List String) (st : RunState) (k : String)
    (h : k ∈ st.attempted) :
    k ∈ (runExercises args stories net saveOk w exercises grades st).attempted := by
  unfold runExercises
  refine foldl_preserve _ (fun st => k ∈ st.attempted) ?_ exercises st h
  intro st e hst
  split
  · unfold runGrades
    refine foldl_preserve _ (fun st => k ∈ st.attempted) ?_ grades st hst
    intro st g hst
    exact processItem_attempted_mono args stories net saveOk w e g st k hst
  · exact hst

theorem runExercises_completed_mono (args : Args) (stories : Stories)
    (net : String → Bool → Nat → ApiResp) (saveOk : String → Bool)
    (w : String) (exercises grades : List String) (st : RunState) (k : String)
    (h : k ∈ st.progress.completed) :
    k ∈ (runExercises args stories net saveOk w exercises grades st).progress.completed := by
  unfold runExercises
  refine foldl_preserve _ (fun st => k ∈ st.progress.completed) ?_ exercises st h
  intro st e hst
  split
  · unfold runGrades
    refine foldl_preserve _ (fun st => k ∈ st.progress.completed) ?_ grades st hst
    intro st g hst
    exact processItem_completed_mono args stories net saveOk w e g st k hst
  · exact hst

theorem runGrades_attempted_mono (args : Args) (stories : Stories)
    (net : String → Bool → Nat → ApiResp) (saveOk : String → Bool)
    (w e : String) (grades : List String) (st : RunState) (k : String)
    (h : k ∈ st.attempted) :
    k ∈ (runGrades args stories net saveOk w e grades st).attempted := by
  unfold runGrades
  refine foldl_preserve _ (fun st => k ∈ st.attempted) ?_ grades st h
  intro st g hst
  exact processItem_attempted_mono args stories net saveOk w e g st k hst

theorem runGrades_completed_mono (args : Args) (stories : Stories)
    (net : String → Bool → Nat → ApiResp) (saveOk : String → Bool)
    (w e : String) (grades : List String) (st : RunState) (k : String)
    (h : k ∈ st.progress.completed) :
    k ∈ (runGrades args stories net saveOk w e grades st).progress.completed := by
  unfold runGrades
  refine foldl_preserve _ (fun st => k ∈ st.progress.completed) ?_ grades st h
  intro st g hst
  exact processItem_completed_mono args stories net saveOk w e g st k hst

theorem processItem_textFalse (args : Args) (stories : Stories)
    (net : String → Bool → Nat → ApiResp) (saveOk : String → Bool)
    (w e g : String) (st : RunState)
    (htext : textPresent stories w e g = false) :
    (processItem args stories net saveOk w e g st).progress = st.progress ∧
    (processItem args stories net saveOk w e g st).attempted = st.attempted ∧
    (processItem args stories net saveOk w e g st).apiCalls = st.apiCalls := by
  unfold processItem
  dsimp only
  simp only [htext, Bool.false_eq_true, if_false]
  split_ifs <;> simp

theorem runGrades_saturate (args : Args) (stories : Stories)
    (net : String → Bool → Nat → ApiResp) (saveOk : String → Bool)
    (w e : String) (hnr : args.retryFailed = false) :
    ∀ (grades : List String) (st : RunState),
      (∀ k ∈ (runGrades args stories net saveOk w e grades st).attempted,
        itemSuccess args net saveOk k = true) →
      ∀ g ∈ grades, textPresent stories w e g = true →
        get_file_key w e g ∈
          (runGrades args stories net saveOk w e grades st).progress.completed := by
  intro grades
  induction grades with
  | nil => intro st _ g hg; simp at hg
  | cons g0 gs ih =>
    intro st hsucc g hg htext
    have hcons : runGrades args stories net saveOk w e (g0 :: gs) st
        = runGrades args stories net saveOk w e gs
            (processItem args stories net saveOk w e g0 st) := rfl
    rcases List.mem_cons.mp hg with heq | htl
    · subst heq
      by_cases hc : get_file_key w e g ∈ st.progress.completed
      · rw [hcons]
        refine runGrades_completed_mono args stories net saveOk w e gs _ _ ?_
        rw [processItem_skip_completed args stories net saveOk w e g st hnr hc]
        exact hc
      · have hattempt := processItem_attempt args stories net saveOk w e g st hnr hc htext
        have hmem : get_file_key w e g ∈
            (runGrades args stories net saveOk w e (g :: gs) st).attempted := by
          rw [hcons]
          refine runGrades_attempted_mono args stories net saveOk w e gs _ _ ?_
          rw [hattempt]
          exact attemptItem_attempted_self args net saveOk _ st
        have hs := hsucc _ hmem
        rw [hcons]
        refine runGrades_completed_mono args stories net saveOk w e gs _ _ ?_
        rw [hattempt]
        exact attemptItem_success_completed args net saveOk _ st hs
    · rw [hcons]
      refine ih (processItem args stories net saveOk w e g0 st) ?_ g htl htext
      intro k hk
      exact hsucc k (by rw [hcons]; exact hk)

theorem runExercises_saturate (args : Args) (stories : Stories)
    (net : String → Bool → Nat → ApiResp) (saveOk : String → Bool)
    (w : String) (hnr : args.retryFailed = false) :
    ∀ (exercises grades : List String) (st : RunState),
      (∀ k ∈ (runExercises args stories net saveOk w exercises grades st).attempted,
        itemSuccess args net saveOk k = true) →
      ∀ e ∈ exercises, stories.hasE w e = true →
        ∀ g ∈ grades, textPresent stories w e g = true →
          get_file_key w e g ∈
            (runExercises args stories net saveOk w exercises grades st).progress.completed := by
  intro exercises
  induction exercises with
  | nil => intro gs st _ e he; simp at he
  | cons e0 es ih =>
    intro gs st hsucc e he hasE g hg htext
    have hcons : runExercises args stories net saveOk w (e0 :: es) gs st
        = runExercises args stories net saveOk w es gs
            (if stories.hasE w e0 then runGrades args stories net saveOk w e0 gs st else st) := rfl
    rcases List.mem_cons.mp he with hkeq | htl
    · subst hkeq
      have hst1 : (if stories.hasE w e then runGrades args stories net saveOk w e gs st else st)
          = runGrades args stories net saveOk w e gs st := by rw [if_pos hasE]
      have hkey : get_file_key w e g ∈
          (runGrades args stories net saveOk w e gs st).progress.completed := by
        refine runGrades_saturate args stories net saveOk w e hnr gs st ?_ g hg htext
        intro k hk
        refine hsucc k ?_
        rw [hcons, hst1]
        exact runExercises_attempted_mono args stories net saveOk w es gs _ k hk
      rw [hcons, hst1]
      exact runExercises_completed_mono args stories net saveOk w es gs _ _ hkey
    · rw [hcons]
      refine ih gs _ ?_ e htl hasE g hg htext
      intro k hk
      exact hsucc k (by rw [hcons]; exact hk)

theorem runWorldviews_saturate (args : Args) (stories : Stories)
    (net : String → Bool → Nat → ApiResp) (saveOk : String → Bool)
    (hnr : args.retryFailed = false) :
    ∀ (worldviews exercises grades : List String) (st : RunState),
      (∀ k ∈ (runWorldviews args stories net saveOk worldviews exercises grades st).attempted,
        itemSuccess args net saveOk k = true) →
      ∀ w ∈ worldviews, stories.hasW w = true →
        ∀ e ∈ exercises, stories.hasE w e = true →
          ∀ g ∈ grades, textPresent stories w e g = true →
            get_file_key w e g ∈
              (runWorldviews args stories net saveOk
                worldviews exercises grades st).progress.completed := by
  intro worldviews
  induction worldviews with
  | nil => intro es gs st _ w hw; simp at hw
  | cons w0 ws ih =>
    intro es gs st hsucc w hw hasW e he hasE g hg htext
    have hcons : runWorldviews args stories net saveOk (w0 :: ws) es gs st
        = runWorldviews args stories net saveOk ws es gs
            (if stories.hasW w0 then runExercises args stories net saveOk w0 es gs st else st) := rfl
    rcases List.mem_cons.mp hw with hkeq | htl
    · subst hkeq
      have hst1 : (if stories.hasW w then runExercises args stories net saveOk w es gs st else st)
          = runExercises args stories net saveOk w es gs st := by rw [if_pos hasW]
      have hkey : get_file_key w e g ∈
          (runExercises args stories net saveOk w es gs st).progress.completed := by
        refine runExercises_saturate args stories net saveOk w hnr es gs st ?_ e he hasE g hg htext
        intro k hk
        refine hsucc k ?_
        rw [hcons, hst1]
        exact runWorldviews_attempted_mono args stories net saveOk ws es gs _ k hk
      rw [hcons, hst1]
      exact runWorldviews_completed_mono args stories net saveOk ws es gs _ _ hkey
    · rw [hcons]
      refine ih es gs _ ?_ w htl hasW e he hasE g hg htext
      intro k hk
      exact hsucc k (by rw [hcons]; exact hk)

theorem runGrades_noattempt (args : Args) (stories : Stories)
    (net : String → Bool → Nat → ApiResp) (saveOk : String → Bool)
    (w e : String) (hnr : args.retryFailed = false) :
    ∀ (grades : List String) (st : RunState),
      (∀ g ∈ grades, textPresent stories w e g = true →
        get_file_key w e g ∈ st.progress.completed) →
      (runGrades args stories net saveOk w e grades st).progress = st.progress ∧
      (runGrades args stories net saveOk w e grades st).attempted = st.attempted ∧
      (runGrades args stories net saveOk w e grades st).apiCalls = st.apiCalls := by
  intro grades
  induction grades with
  | nil => intro st _; exact ⟨rfl, rfl, rfl⟩
  | cons g0 gs ih =>
    intro st hall
    have hcons : runGrades args stories net saveOk w e (g0 :: gs) st
        = runGrades args stories net saveOk w e gs
            (processItem args stories net saveOk w e g0 st) := rfl
    have hfields : (processItem args stories net saveOk w e g0 st).progress = st.progress ∧
        (processItem args stories net saveOk w e g0 st).attempted = st.attempted ∧
        (processItem args stories net saveOk w e g0 st).apiCalls = st.apiCalls := by
      by_cases htext : textPresent stories w e g0 = true
      · have hc := hall g0 (List.mem_cons_self g0 gs) htext
        rw [processItem_skip_completed args stories net saveOk w e g0 st hnr hc]
        exact ⟨rfl, rfl, rfl⟩
      · exact processItem_textFalse args stories net saveOk w e g0 st
          (Bool.eq_false_iff.mpr htext)
    have hall2 : ∀ g ∈ gs, textPresent stories w e g = true →
        get_file_key w e g ∈
          (processItem args stories net saveOk w e g0 st).progress.completed := by
      intro g hg ht
      rw [hfields.1]
      exact hall g (List.mem_cons_of_mem g0 hg) ht
    obtain ⟨hp, ha, hapi⟩ := ih (processItem args stories net saveOk w e g0 st) hall2
    refine ⟨?_, ?_, ?_⟩
    · rw [hcons, hp, hfields.1]
    · rw [hcons, ha, hfields.2.1]
    · rw [hcons, hapi, hfields.2.2]

theorem runExercises_noattempt (args : Args) (stories : Stories)
    (net : String → Bool → Nat → ApiResp) (saveOk : String → Bool)
    (w : String) (hnr : args.retryFailed = false) :
    ∀ (exercises grades : List String) (st : RunState),
      (∀ e ∈ exercises, stories.hasE w e = true →
        ∀ g ∈ grades, textPresent stories w e g = true →
          get_file_key w e g ∈ st.progress.completed) →
      (runExercises args stories net saveOk w exercises grades st).progress = st.progress ∧
      (runExercises args stories net saveOk w exercises grades st).attempted = st.attempted ∧
      (runExercises args stories net saveOk w exercises grades st).apiCalls = st.apiCalls := by
  intro exercises
  induction exercises with
  | nil => intro gs st _; exact ⟨rfl, rfl, rfl⟩
  | cons e0 es ih =>
    intro gs st hall
    have hcons : runExercises args stories net saveOk w (e0 :: es) gs st
        = runExercises args stories net saveOk w es gs
            (if stories.hasE w e0 then runGrades args stories net saveOk w e0 gs st else st) := rfl
    have hfields : (if stories.hasE w e0 then runGrades args stories net saveOk w e0 gs st else st).progress
          = st.progress ∧
        (if stories.hasE w e0 then runGrades args stories net saveOk w e0 gs st else st).attempted
          = st.attempted ∧
        (if stories.hasE w e0 then runGrades args stories net saveOk w e0 gs st else st).apiCalls
          = st.apiCalls := by
      by_cases hasE : stories.hasE w e0 = true
      · rw [if_pos hasE]
        exact runGrades_noattempt args stories net saveOk w e0 hnr gs st
          (fun g hg ht => hall e0 (List.mem_cons_self e0 es) hasE g hg ht)
      · rw [if_neg (by simpa using hasE)]
        exact ⟨rfl, rfl, rfl⟩
    have hall2 : ∀ e ∈ es, stories.hasE w e = true →
        ∀ g ∈ gs, textPresent stories w e g = true →
          get_file_key w e g ∈
            (if stories.hasE w e0 then runGrades args stories net saveOk w e0 gs st else st).progress.completed := by
      intro e he hasE g hg ht
      rw [hfields.1]
      exact hall e (List.mem_cons_of_mem e0 he) hasE g hg ht
    obtain ⟨hp, ha, hapi⟩ := ih gs _ hall2
    refine ⟨?_, ?_, ?_⟩
    · rw [hcons, hp, hfields.1]
    · rw [hcons, ha, hfields.2.1]
    · rw [hcons, hapi, hfields.2.2]

theorem runWorldviews_noattempt (args : Args) (stories : Stories)
    (net : String → Bool → Nat → ApiResp) (saveOk : String → Bool)
    (hnr : args.retryFailed = false) :
    ∀ (worldviews exercises grades : List String) (st : RunState),
      (∀ w ∈ worldviews, stories.hasW w = true →
        ∀ e ∈ exercises, stories.hasE w e = true →
          ∀ g ∈ grades, textPresent stories w e g = true →
            get_file_key w e g ∈ st.progress.completed) →
      (runWorldviews args stories net saveOk worldviews exercises grades st).progress
        = st.progress ∧
      (runWorldviews args stories net saveOk worldviews exercises grades st).attempted
        = st.attempted ∧
      (runWorldviews args stories net saveOk worldviews exercises grades st).apiCalls
        = st.apiCalls := by
  intro worldviews
  induction worldviews with
  | nil => intro es gs st _; exact ⟨rfl, rfl, rfl⟩
  | cons w0 ws ih =>
    intro es gs st hall
    have hcons : runWorldviews args stories net saveOk (w0 :: ws) es gs st
        = runWorldviews args stories net saveOk ws es gs
            (if stories.hasW w0 then runExercises args stories net saveOk w0 es gs st else st) := rfl
    have hfields : (if stories.hasW w0 then runExercises args stories net saveOk w0 es gs st else st).progress
          = st.progress ∧
        (if stories.hasW w0 then runExercises args stories net saveOk w0 es gs st else st).attempted
          = st.attempted ∧
        (if stories.hasW w0 then runExercises args stories net saveOk w0 es gs st else st).apiCalls
          = st.apiCalls := by
      by_cases hasW : stories.hasW w0 = true
      · rw [if_pos hasW]
        exact runExercises_noattempt args stories net saveOk w0 hnr es gs st
          (fun e he hasE g hg ht => hall w0 (List.mem_cons_self w0 ws) hasW e he hasE g hg ht)
      · rw [if_neg (by simpa using hasW)]
        exact ⟨rfl, rfl, rfl⟩
    have hall2 : ∀ w ∈ ws, stories.hasW w = true →
        ∀ e ∈ es, stories.hasE w e = true →
          ∀ g ∈ gs, textPresent stories w e g = true →
            get_file_key w e g ∈
              (if stories.hasW w0 then runExercises args stories net saveOk w0 es gs st else st).progress.completed := by
      intro w hw hasW e he hasE g hg ht
      rw [hfields.1]
      exact hall w (List.mem_cons_of_mem w0 hw) hasW e he hasE g hg ht
    obtain ⟨hp, ha, hapi⟩ := ih es gs _ hall2
    refine ⟨?_, ?_, ?_⟩
    · rw [hcons, hp, hfields.1]
    · rw [hcons, ha, hfields.2.1]
    · rw [hcons, hapi, hfields.2.2]

/-- C5.  If a normal-mode batch run (the mode whose skip test is the completed
list; `--retry-failed` not set) finishes with every attempted item succeeding,
then a second run with the resulting journal and the same arguments attempts
nothing and performs zero remote synthesis calls: every eligible item is
already in the completed list and is skipped. -/
theorem C5_idempotent (dry : Bool) (stories : Stories)
    (net : String → Bool → Nat → ApiResp) (saveOk : String → Bool)
    (worldviews exercises grades : List String) (p : Progress)
    (h : ∀ k ∈ (mainLoop ⟨dry, false⟩ stories net saveOk
        worldviews exercises grades p).attempted,
      itemSuccess ⟨dry, false⟩ net saveOk k = true) :
    (mainLoop ⟨dry, false⟩ stories net saveOk worldviews exercises grades
      (mainLoop ⟨dry, false⟩ stories net saveOk
        worldviews exercises grades p).progress).attempted = [] ∧
    (mainLoop ⟨dry, false⟩ stories net saveOk worldviews exercises grades
      (mainLoop ⟨dry, false⟩ stories net saveOk
        worldviews exercises grades p).progress).apiCalls = [] := by
  have hsat := runWorldviews_saturate ⟨dry, false⟩ stories net saveOk rfl
    worldviews exercises grades (initState p) h
  have hno := runWorldviews_noattempt ⟨dry, false⟩ stories net saveOk rfl
    worldviews exercises grades
    (initState (mainLoop ⟨dry, false⟩ stories net saveOk
      worldviews exercises grades p).progress)
    (fun w hw hasW e he hasE g hg ht => hsat w hw hasW e he hasE g hg ht)
  exact ⟨hno.2.1, hno.2.2⟩

/-- Witness for C5 at a concrete one-item dry run (a dry-run attempt always
succeeds): the second run attempts nothing and makes no API call. -/
theorem C5_witness :
    (mainLoop ⟨true, false⟩ demoStories deadNet (fun _ => true)
      ["fantasy"] ["squat"] ["perfect"]
      (mainLoop ⟨true, false⟩ demoStories deadNet (fun _ => true)
        ["fantasy"] ["squat"] ["perfect"] resetProgress).progress).attempted = [] ∧
    (mainLoop ⟨true, false⟩ demoStories deadNet (fun _ => true)
      ["fantasy"] ["squat"] ["perfect"]
      (mainLoop ⟨true, false⟩ demoStories deadNet (fun _ => true)
        ["fantasy"] ["squat"] ["perfect"] resetProgress).progress).apiCalls = [] :=
  C5_idempotent true demoStories deadNet (fun _ => true)
    ["fantasy"] ["squat"] ["perfect"] resetProgress (fun _ _ => rfl)

/-! ## Model of `prompt_generator.py`

`generate_prompts` (lines 217-246) walks the static `worlds` table in
declaration order and, for every location of every theme, renders that theme
template with a randomly chosen time/weather phrase, collecting one tagged
block per location.  The random draw `random.choice(data["times"])` is modelled
by a choice function giving, for the `li`-th location of the `wi`-th world, the
index of the chosen phrase; every `times` list has exactly four entries, so the
index is a `Fin 4`. -/

/-- The constant `PREFIX` of prompt_generator.py (line 9). -/
def PREFIX_STR : String := "360 degree equirectangular panorama, seamless texture, 3D skybox, Ultra-detailed 3D render, volumetric lighting, cinematic atmosphere, 8k resolution, rendered in Unreal Engine 5, wide angle view of"

/-- The constant `SUFFIX` of prompt_generator.py (line 12). -/
def SUFFIX_STR : String := "no frame, no border, hdri style. --ar 2:1 --style raw --v 6.0"

/-- Per-theme record of the `worlds` table: template string with named
slots, location phrases, and time/weather phrases. -/
structure WorldData where
  template : String
  locations : List String
  times : List String
deriving DecidableEq, Repr

/-- The `worlds` entry for theme `Fantasy`. -/
def fantasyData : WorldData where
  template := "\x7bprefix\x7d \x7blocation\x7d in the Kingdom of Asteria. \x7btime_weather\x7d. Magical atmosphere with floating golden particles. \x7bsuffix\x7d"
  locations := [
    "an Ancient magic library with floating books",
    "a Crystal training chamber with glowing shards",
    "Floating stone platforms in the sky",
    "an Enchanted forest clearing with magical flowers",
    "a Wizard tower interior with scrolls",
    "an Arcane rune circle glowing on the ground",
    "a Moonlit sanctuary with silver water",
    "a Magical waterfall cave with blue light",
    "a Starry observation deck with telescopes",
    "a Dragon\x27s lair entrance with treasure",
    "an Alchemist\x27s workshop with bubbling potions",
    "a Glowing mushroom grove in a dark forest",
    "Ancient temple ruins covered in vines",
    "Floating islands connected by light bridges",
    "a Portal chamber with a swirling vortex",
    "a Sacred spring with healing water",
    "a Spell casting arena with barriers",
    "an Elven garden with white marble structures",
    "a Phoenix nest on a high peak",
    "an Enchanted mirror hall with reflections"]
  times := [
    "at warm sunset with purple clouds",
    "under a starry night sky with two moons",
    "in a mysterious foggy morning",
    "during a magical eclipse event"]

/-- The `worlds` entry for theme `Sports`. -/
def sportsData : WorldData where
  template := "\x7bprefix\x7d \x7blocation\x7d. \x7btime_weather\x7d. High energy atmosphere with golden lighting (#ffd700). View from the center looking out. \x7bsuffix\x7d"
  locations := [
    "a Modern gym interior with high-tech equipment",
    "an Olympic training center with large windows",
    "a Stadium locker room with uniforms",
    "an Outdoor running track at dawn",
    "a Professional Boxing ring arena",
    "an Olympic Swimming pool lane with clear water",
    "a Pro Basketball court with polished wood",
    "a Soccer field sideline view",
    "a Heavy Weight room with dumbbells",
    "a Peaceful Yoga studio with sunlight",
    "a Medal podium with spotlights",
    "a Sports rehabilitation room with sensors",
    "a Press conference room with microphones",
    "a Champions wall hall of fame",
    "a Training field at sunset",
    "an Ice skating rink with reflections",
    "a Tennis court stadium",
    "an Indoor Climbing wall facility",
    "a Marathon finish line with confetti",
    "a Sports science lab with monitors"]
  times := [
    "during a championship final match night",
    "during a bright afternoon training session",
    "under dramatic stadium floodlights",
    "in the quiet moments before the game"]

/-- The `worlds` entry for theme `Idol`. -/
def idolData : WorldData where
  template := "\x7bprefix\x7d \x7blocation\x7d. \x7btime_weather\x7d. K-pop style with pink (#ff69b4) and purple lighting. Sparkling and dreamy vibe. \x7bsuffix\x7d"
  locations := [
    "a Dance practice room with full-wall mirrors",
    "a Professional Recording studio booth",
    "a Huge Concert stage with LED screens",
    "a Neon lit backstage corridor",
    "a Makeup room vanity with lights",
    "a Pastel colored Music video set",
    "a Fan meeting venue with gifts",
    "a Rooftop photoshoot set with city view",
    "a Vocal training booth with piano",
    "an Entertainment agency fancy lobby",
    "an Award show red carpet event",
    "an Idol dorm living room with plushies",
    "a Debut showcase stage with smoke effects",
    "a Trendy Street fashion district",
    "a Concert hall filled with Light stick ocean",
    "an Album jacket shooting studio",
    "a Practice room mirror selfie spot",
    "a Dream stage with a single spotlight",
    "a Music show waiting room with name tags",
    "a Fan event cafe with decorations"]
  times := [
    "filled with confetti and excitement",
    "with emotional and soft moody lighting",
    "bursting with bright energetic pop lights",
    "with a dreamy spotlight on the center"]

/-- The `worlds` entry for theme `SF`. -/
def sfData : WorldData where
  template := "\x7bprefix\x7d \x7blocation\x7d inside U.S.S. Nova. \x7btime_weather\x7d. Cyan (#00d4ff) and blue holographic interfaces. Futuristic and sleek. \x7bsuffix\x7d"
  locations := [
    "a Space station corridor with white panels",
    "a Holographic control room with star maps",
    "a Cryo chamber room with sleeping pods",
    "a Zero gravity training sphere",
    "a Cybernetic enhancement lab with arms",
    "a Spaceship cockpit with window view",
    "a Planet observation deck with glass floor",
    "an AI core mainframe server room",
    "a Neon city skyline visible from window",
    "an Android assembly line factory",
    "a Teleportation chamber with beams",
    "a Laser grid training room",
    "a Quantum computer room with cables",
    "an Alien planet surface with strange plants",
    "a Futuristic Medical bay with scanners",
    "a Warp drive engine room with blue core",
    "a Virtual reality nexus hub",
    "a Mars colony dome interior",
    "an Energy shield generator room",
    "Floating data streams in a dark room"]
  times := [
    "with deep space stars visible outside",
    "during a red alert emergency situation",
    "in calm standard operating mode",
    "with mysterious glowing alien artifacts"]

/-- The `worlds` entry for theme `Zombie`. -/
def zombieData : WorldData where
  template := "\x7bprefix\x7d \x7blocation\x7d. \x7btime_weather\x7d. Green toxic atmosphere (#4caf50). Ruins and nature reclaiming the city. \x7bsuffix\x7d"
  locations := [
    "an Underground bunker with metal doors",
    "a Makeshift medical lab with plastic curtains",
    "a Barricaded safe house living room",
    "an Abandoned hospital hallway",
    "a Supply storage room with shelves",
    "a Rooftop survivor camp with tents",
    "an Overgrown city street with vines",
    "a Military checkpoint with fences",
    "an Emergency radio tower on a hill",
    "a Vaccination center with debris",
    "a Quarantine zone with warning signs",
    "a Survivor training ground with targets",
    "a Weapon crafting workshop with tools",
    "a Food greenhouse dome on a roof",
    "a Night watch tower with searchlight",
    "an Abandoned mall atrium",
    "a Refugee camp with campfires",
    "a Fortified school entrance",
    "a City skyline at dawn over ruins",
    "a Hope community garden with corn"]
  times := [
    "in heavy rain and thunder",
    "under a dark green toxic sky",
    "in a foggy gray dawn",
    "at pitch black night with flickering lights"]

/-- The `worlds` entry for theme `Spy`. -/
def spyData : WorldData where
  template := "\x7bprefix\x7d \x7blocation\x7d. \x7btime_weather\x7d. Purple (#9c27b0) and neon accents. Mysterious and sleek spy movie vibe. \x7bsuffix\x7d"
  locations := [
    "a Secret underground base operations room",
    "a High-tech surveillance room with screens",
    "a Laser grid training hallway",
    "a Disguise wardrobe room with mirrors",
    "a Dark Interrogation chamber with one light",
    "a Gadget laboratory with prototypes",
    "a Casino operation floor with tables",
    "a Rooftop helipad at night",
    "a Mission briefing room with holograms",
    "an Encrypted server room with cables",
    "a Night city infiltration point",
    "an Embassy ballroom with chandeliers",
    "a Safe house apartment with weapon wall",
    "a Submarine interior corridor",
    "a Mountain fortress exterior in snow",
    "a Villain\x27s lair office with shark tank",
    "an Escape vehicle garage with sports cars",
    "a Satellite control center",
    "a Passport forging desk with stamps",
    "a Double agent meetup spot in a park"]
  times := [
    "with dark dramatic shadows",
    "illuminated by cold blue monitor lights",
    "during a intense rainy night",
    "with a sunrise viewing the city skyline"]

/-- The `worlds` table of prompt_generator.py (lines 18-211), in its
declaration order. -/
def worlds : List (String × WorldData) :=
  [("Fantasy", fantasyData), ("Sports", sportsData), ("Idol", idolData), ("SF", sfData), ("Zombie", zombieData), ("Spy", spyData)]

/-- The opening brace character, written via its code point. -/
def lbraceChar : Char := Char.ofNat 123

/-- The closing brace character, written via its code point. -/
def rbraceChar : Char := Char.ofNat 125

/-- Python `str.format` over the templates of the `worlds` table: every slot
(a name between braces) is replaced by `vals` applied to the slot name.  The
Boolean mode is false while copying literal text and true while reading a slot
name into the accumulator; the templates contain no escaped braces. -/
def formatAux (vals : String → String) : Bool → List Char → List Char → List Char
  | false, _, [] => []
  | false, acc, c :: cs =>
    if c == lbraceChar then formatAux vals true [] cs
    else c :: formatAux vals false acc cs
  | true, acc, [] => (vals (String.mk acc)).data
  | true, acc, c :: cs =>
    if c == rbraceChar then (vals (String.mk acc)).data ++ formatAux vals false [] cs
    else formatAux vals true (acc ++ [c]) cs

/-- The call `template.format(prefix=..., location=..., time_weather=..., suffix=...)`. -/
def pyFormat (template : String) (vals : String → String) : String :=
  String.mk (formatAux vals false [] template.data)

/-- One entry appended to `all_prompts` (lines 230-237): the rendered template,
tagged with the bracketed world name, plus the trailing newline of the f-string. -/
def renderBlock (name : String) (data : WorldData) (location timeSel : String) : String :=
  "[" ++ name ++ "] " ++
    pyFormat data.template (fun slot =>
      if slot = "prefix" then PREFIX_STR
      else if slot = "location" then location
      else if slot = "time_weather" then timeSel
      else if slot = "suffix" then SUFFIX_STR
      else "") ++ "\n"

/-- The inner loop of `generate_prompts` for one world: one block per location,
in order, with the chosen time/weather phrase for each. -/
def renderWorld (choice1 : Nat → Fin 4) (name : String) (data : WorldData) : List String :=
  (List.range data.locations.length).map (fun li =>
    renderBlock name data (data.locations.getD li "")
      (data.times.getD (choice1 li).val ""))

/-- Model of `generate_prompts` (lines 217-246): all blocks of all worlds, in table
order.  `choice wi li` is the random index drawn for the `li`-th location of
the `wi`-th world. -/
def generate_prompts (choice : Nat → Nat → Fin 4) : List String :=
  (worlds.enum.map (fun wp => renderWorld (choice wp.1) wp.2.1 wp.2.2)).flatten

/-- Executable check that a character list starts with another, written with
the bare recursor so that kernel evaluation stays linear. -/
def isPrefixOfB (p l : List Char) : Bool :=
  List.rec (motive := fun _ => List Char → Bool)
    (fun _ => true)
    (fun a _ ih l =>
      List.rec (motive := fun _ => Bool) false (fun b bs _ => a == b && ih bs) l)
    p l

/-- Executable check that a character list occurs contiguously in another. -/
def isInfixB (p l : List Char) : Bool :=
  List.rec (motive := fun _ => Bool) (isPrefixOfB p [])
    (fun b bs ih => isPrefixOfB p (b :: bs) || ih) l

theorem isPrefixOfB_nil (l : List Char) : isPrefixOfB [] l = true := rfl

theorem isPrefixOfB_cons_nil (a : Char) (as : List Char) :
    isPrefixOfB (a :: as) [] = false := rfl

theorem isPrefixOfB_cons_cons (a b : Char) (as bs : List Char) :
    isPrefixOfB (a :: as) (b :: bs) = (a == b && isPrefixOfB as bs) := rfl

theorem isInfixB_nil (p : List Char) : isInfixB p [] = isPrefixOfB p [] := rfl

theorem isInfixB_cons (p : List Char) (b : Char) (bs : List Char) :
    isInfixB p (b :: bs) = (isPrefixOfB p (b :: bs) || isInfixB p bs) := rfl

theorem isPrefixOfB_iff (p : List Char) : ∀ l, isPrefixOfB p l = true ↔ p <+: l := by
  induction p with
  | nil => intro l; simp [isPrefixOfB_nil]
  | cons a as ih =>
    intro l
    cases l with
    | nil => simp [isPrefixOfB_cons_nil]
    | cons b bs =>
      simp [isPrefixOfB_cons_cons, List.cons_prefix_cons, ih, And.comm]

theorem isInfixB_iff (p : List Char) : ∀ l, isInfixB p l = true ↔ p <:+: l := by
  intro l
  induction l with
  | nil => simp [isInfixB_nil, isPrefixOfB_iff]
  | cons b bs ih => simp [isInfixB_cons, isPrefixOfB_iff, ih, List.infix_cons_iff]

/-- All properties C8 asserts of a single rendered block: it starts with the
bracketed theme tag, contains the fixed prefix and suffix strings, and contains
exactly one of the theme time/weather phrases. -/
def blockOk (name : String) (data : WorldData) (loc timeSel : String) : Bool :=
  let b := (renderBlock name data loc timeSel).data
  isPrefixOfB ("[" ++ name ++ "] ").data b &&
  isInfixB PREFIX_STR.data b &&
  isInfixB SUFFIX_STR.data b &&
  (data.times.countP (fun t => isInfixB t.data b) == 1)

/-- Check of `blockOk` over every location and every possible time choice of one theme. -/
def worldOk (name : String) (data : WorldData) : Bool :=
  data.locations.all (fun loc => data.times.all (fun t => blockOk name data loc t))

theorem fantasy_worldOk : worldOk "Fantasy" fantasyData = true := by decide

theorem sports_worldOk : worldOk "Sports" sportsData = true := by decide

theorem idol_worldOk : worldOk "Idol" idolData = true := by decide

theorem sf_worldOk : worldOk "SF" sfData = true := by decide

theorem zombie_worldOk : worldOk "Zombie" zombieData = true := by decide

theorem spy_worldOk : worldOk "Spy" spyData = true := by decide

/-- The world at table index `wi`: its name and data. -/
def worldAt (wi : Nat) : String × WorldData := worlds.getD wi ("", ⟨"", [], []⟩)

/-- The block at overall index `20 * wi + li` of the generated prompt list. -/
def blockAt (choice : Nat → Nat → Fin 4) (wi li : Nat) : String :=
  (generate_prompts choice).getD (20 * wi + li) ""

theorem getD_mem {α : Type _} (l : List α) (n : Nat) (d : α) (h : n < l.length) :
    l.getD n d ∈ l := by
  rw [List.getD_eq_get?]
  cases he : l.get? n with
  | none => exact absurd he (by simp [List.get?_eq_none]; omega)
  | some a => simpa using List.get?_mem he

theorem flatten_get? {α : Type _} (n : Nat) :
    ∀ (L : List (List α)), (∀ l ∈ L, l.length = n) →
      ∀ (wi li : Nat), li < n →
        L.flatten.get? (n * wi + li) = (L.getD wi []).get? li := by
  intro L
  induction L with
  | nil => intro _ wi li _; simp
  | cons A L ih =>
    intro h wi li hli
    have hA : A.length = n := h A (List.mem_cons_self A L)
    cases wi with
    | zero =>
      have h0 : n * 0 + li = li := by omega
      rw [h0, List.flatten_cons, List.get?_append (by omega)]
      rfl
    | succ wi =>
      have h1 : n * (wi + 1) + li = A.length + (n * wi + li) := by rw [hA]; ring
      rw [h1, List.flatten_cons, List.get?_append_right (by omega),
        show A.length + (n * wi + li) - A.length = n * wi + li by omega]
      exact ih (fun l hl => h l (List.mem_cons_of_mem A hl)) wi li hli

theorem flatten_getD {α : Type _} (n : Nat) (d : α) (L : List (List α))
    (h : ∀ l ∈ L, l.length = n) (wi li : Nat) (hli : li < n) :
    L.flatten.getD (n * wi + li) d = (L.getD wi []).getD li d := by
  rw [List.getD_eq_get?, List.getD_eq_get?, flatten_get? n L h wi li hli]

theorem renderWorld_getD (c1 : Nat → Fin 4) (name : String) (data : WorldData)
    (li : Nat) (h : li < data.locations.length) :
    (renderWorld c1 name data).getD li ""
      = renderBlock name data (data.locations.getD li "")
          (data.times.getD (c1 li).val "") := by
  unfold renderWorld
  rw [List.getD_eq_get?, List.get?_map, List.get?_range (by simpa using h)]
  rfl

theorem C8_block_props (name : String) (data : WorldData)
    (hwo : worldOk name data = true) (loc t : String)
    (hloc : loc ∈ data.locations) (ht : t ∈ data.times) :
    ("[" ++ name ++ "] ").data <+: (renderBlock name data loc t).data ∧
    PREFIX_STR.data <:+: (renderBlock name data loc t).data ∧
    SUFFIX_STR.data <:+: (renderBlock name data loc t).data ∧
    data.times.countP
      (fun s => isInfixB s.data (renderBlock name data loc t).data) = 1 := by
  have hb := List.all_eq_true.mp (List.all_eq_true.mp hwo loc hloc) t ht
  rw [blockOk] at hb
  simp only [Bool.and_eq_true] at hb
  obtain ⟨⟨⟨h1, h2⟩, h3⟩, h4⟩ := hb
  exact ⟨(isPrefixOfB_iff _ _).mp h1, (isInfixB_iff _ _).mp h2,
    (isInfixB_iff _ _).mp h3, by simpa using h4⟩

theorem worlds_segment_lengths (choice : Nat → Nat → Fin 4) :
    ∀ l ∈ worlds.enum.map (fun wp => renderWorld (choice wp.1) wp.2.1 wp.2.2),
      l.length = 20 := by
  intro l hl
  obtain ⟨wp, hwp, rfl⟩ := List.mem_map.mp hl
  have hlen : (renderWorld (choice wp.1) wp.2.1 wp.2.2).length
      = wp.2.2.locations.length := by
    simp [renderWorld]
  rw [hlen]
  have hall : worlds.enum.all (fun wp => wp.2.2.locations.length == 20) = true := by decide
  simpa using List.all_eq_true.mp hall wp hwp

/-- C8.  The prompt renderer, run on the source catalog (six themes of twenty
locations and four time/weather phrases each) with any sequence of random time
choices, emits exactly 120 = 6 * 20 blocks; block number `20 * wi + li` is the
rendered block of the `li`-th location of the `wi`-th catalog theme (so blocks
appear in catalog order, twenty per theme, in particular twenty tagged
`[Sports]`); and every block begins with the bracketed tag of its theme, contains
the fixed prefix and suffix strings verbatim, and contains exactly one of its
time/weather phrases of its theme verbatim. -/
theorem C8_generate_prompts (choice : Nat → Nat → Fin 4) :
    (generate_prompts choice).length = 120 ∧
    ∀ wi, wi < 6 → ∀ li, li < 20 →
      blockAt choice wi li
        = renderBlock (worldAt wi).1 (worldAt wi).2
            ((worldAt wi).2.locations.getD li "")
            ((worldAt wi).2.times.getD (choice wi li).val "") ∧
      ("[" ++ (worldAt wi).1 ++ "] ").data <+: (blockAt choice wi li).data ∧
      PREFIX_STR.data <:+: (blockAt choice wi li).data ∧
      SUFFIX_STR.data <:+: (blockAt choice wi li).data ∧
      (worldAt wi).2.times.countP
        (fun t => isInfixB t.data (blockAt choice wi li).data) = 1 := by
  constructor
  · rfl
  · intro wi hwi li hli
    have hflat := flatten_getD 20 ""
      (worlds.enum.map (fun wp => renderWorld (choice wp.1) wp.2.1 wp.2.2))
      (worlds_segment_lengths choice) wi li hli
    interval_cases wi
    · have hb : blockAt choice 0 li
          = renderBlock "Fantasy" fantasyData (fantasyData.locations.getD li "")
              (fantasyData.times.getD (choice 0 li).val "") := by
        unfold blockAt
        rw [show generate_prompts choice
            = (worlds.enum.map (fun wp => renderWorld (choice wp.1) wp.2.1 wp.2.2)).flatten
          from rfl, hflat]
        exact renderWorld_getD (choice 0) "Fantasy" fantasyData li (by simp [fantasyData]; omega)
      refine ⟨hb, ?_⟩
      rw [hb]
      exact C8_block_props "Fantasy" fantasyData fantasy_worldOk _ _
        (getD_mem _ _ _ (by simp [fantasyData]; omega))
        (getD_mem _ _ _ (by simpa [fantasyData] using (choice 0 li).isLt))
    · have hb : blockAt choice 1 li
          = renderBlock "Sports" sportsData (sportsData.locations.getD li "")
              (sportsData.times.getD (choice 1 li).val "") := by
        unfold blockAt
        rw [show generate_prompts choice
            = (worlds.enum.map (fun wp => renderWorld (choice wp.1) wp.2.1 wp.2.2)).flatten
          from rfl, hflat]
        exact renderWorld_getD (choice 1) "Sports" sportsData li (by simp [sportsData]; omega)
      refine ⟨hb, ?_⟩
      rw [hb]
      exact C8_block_props "Sports" sportsData sports_worldOk _ _
        (getD_mem _ _ _ (by simp [sportsData]; omega))
        (getD_mem _ _ _ (by simpa [sportsData] using (choice 1 li).isLt))
    · have hb : blockAt choice 2 li
          = renderBlock "Idol" idolData (idolData.locations.getD li "")
              (idolData.times.getD (choice 2 li).val "") := by
        unfold blockAt
        rw [show generate_prompts choice
            = (worlds.enum.map (fun wp => renderWorld (choice wp.1) wp.2.1 wp.2.2)).flatten
          from rfl, hflat]
        exact renderWorld_getD (choice 2) "Idol" idolData li (by simp [idolData]; omega)
      refine ⟨hb, ?_⟩
      rw [hb]
      exact C8_block_props "Idol" idolData idol_worldOk _ _
        (getD_mem _ _ _ (by simp [idolData]; omega))
        (getD_mem _ _ _ (by simpa [idolData] using (choice 2 li).isLt))
    · have hb : blockAt choice 3 li
          = renderBlock "SF" sfData (sfData.locations.getD li "")
              (sfData.times.getD (choice 3 li).val "") := by
        unfold blockAt
        rw [show generate_prompts choice
            = (worlds.enum.map (fun wp => renderWorld (choice wp.1) wp.2.1 wp.2.2)).flatten
          from rfl, hflat]
        exact renderWorld_getD (choice 3) "SF" sfData li (by simp [sfData]; omega)
      refine ⟨hb, ?_⟩
      rw [hb]
      exact C8_block_props "SF" sfData sf_worldOk _ _
        (getD_mem _ _ _ (by simp [sfData]; omega))
        (getD_mem _ _ _ (by simpa [sfData] using (choice 3 li).isLt))
    · have hb : blockAt choice 4 li
          = renderBlock "Zombie" zombieData (zombieData.locations.getD li "")
              (zombieData.times.getD (choice 4 li).val "") := by
        unfold blockAt
        rw [show generate_prompts choice
            = (worlds.enum.map (fun wp => renderWorld (choice wp.1) wp.2.1 wp.2.2)).flatten
          from rfl, hflat]
        exact renderWorld_getD (choice 4) "Zombie" zombieData li (by simp [zombieData]; omega)
      refine ⟨hb, ?_⟩
      rw [hb]
      exact C8_block_props "Zombie" zombieData zombie_worldOk _ _
        (getD_mem _ _ _ (by simp [zombieData]; omega))
        (getD_mem _ _ _ (by simpa [zombieData] using (choice 4 li).isLt))
    · have hb : blockAt choice 5 li
          = renderBlock "Spy" spyData (spyData.locations.getD li "")
              (spyData.times.getD (choice 5 li).val "") := by
        unfold blockAt
        rw [show generate_prompts choice
            = (worlds.enum.map (fun wp => renderWorld (choice wp.1) wp.2.1 wp.2.2)).flatten
          from rfl, hflat]
        exact renderWorld_getD (choice 5) "Spy" spyData li (by simp [spyData]; omega)
      refine ⟨hb, ?_⟩
      rw [hb]
      exact C8_block_props "Spy" spyData spy_worldOk _ _
        (getD_mem _ _ _ (by simp [spyData]; omega))
        (getD_mem _ _ _ (by simpa [spyData] using (choice 5 li).isLt))

/-- Witness for C8 at the constant choice of the first time phrase: 120 blocks,
and block 20 (the first Sports block) starts with the Sports tag. -/
theorem C8_witness :
    (generate_prompts (fun _ _ => (0 : Fin 4))).length = 120 ∧
    ("[" ++ "Sports" ++ "] ").data
      <+: (blockAt (fun _ _ => (0 : Fin 4)) 1 0).data := by
  refine ⟨(C8_generate_prompts (fun _ _ => (0 : Fin 4))).1, ?_⟩
  exact ((C8_generate_prompts (fun _ _ => (0 : Fin 4))).2 1 (by omega) 0 (by omega)).2.1
